import Mathlib

/-!
Verification of the camera-pose solver (`player_control/camera`): a shallow
embedding of `first_person.rs` and `third_person.rs` over the real numbers.
`f32` scalars are modelled as `ℝ`; the vector/quaternion/transform operations
of the host libraries (glam / bevy) are modelled by their mathematical
definitions, with each modelled library function noted in its doc comment.
-/

namespace Hamlet

noncomputable section

/-- Model of glam `Vec2` (`f32` components as reals). -/
structure Vec2 where
  x : ℝ
  y : ℝ

/-- Model of glam `Vec3` (`f32` components as reals). -/
structure Vec3 where
  x : ℝ
  y : ℝ
  z : ℝ

instance : Add Vec3 := ⟨fun a b => ⟨a.x + b.x, a.y + b.y, a.z + b.z⟩⟩

instance : Sub Vec3 := ⟨fun a b => ⟨a.x - b.x, a.y - b.y, a.z - b.z⟩⟩

instance : Neg Vec3 := ⟨fun a => ⟨-a.x, -a.y, -a.z⟩⟩

instance : SMul ℝ Vec3 := ⟨fun r a => ⟨r * a.x, r * a.y, r * a.z⟩⟩

/-- glam `Vec3::dot`. -/
def Vec3.dot (a b : Vec3) : ℝ := a.x * b.x + a.y * b.y + a.z * b.z

/-- glam `Vec3::length_squared` (`self.dot(self)`). -/
def Vec3.lengthSquared (v : Vec3) : ℝ := v.dot v

/-- glam `Vec3::length` (`self.dot(self).sqrt()`). -/
def Vec3.length (v : Vec3) : ℝ := Real.sqrt (v.dot v)

/-- glam `Vec3::normalize` (`self * self.length().recip()`). -/
def Vec3.normalize (v : Vec3) : Vec3 := (v.length)⁻¹ • v

/-- glam `Vec3::cross`. -/
def Vec3.cross (a b : Vec3) : Vec3 :=
  ⟨a.y * b.z - a.z * b.y, a.z * b.x - a.x * b.z, a.x * b.y - a.y * b.x⟩

/-- glam `Vec3::lerp` (`self + (rhs - self) * s`). -/
def Vec3.lerp (a b : Vec3) (s : ℝ) : Vec3 := a + s • (b - a)

/-- glam `Vec3::any_orthonormal_vector` (Pixar orthonormal-basis construction);
Rust `f32::signum` returns `1.0` on `+0.0`, modelled by the `z < 0` test. -/
def Vec3.anyOrthonormalVector (v : Vec3) : Vec3 :=
  let sign : ℝ := if v.z < 0 then -1 else 1
  let a : ℝ := -1 / (sign + v.z)
  let b : ℝ := v.x * v.y * a
  ⟨b, sign + v.y * v.y * a, -v.y⟩

/-- Model of glam `Quat` (`x, y, z` imaginary parts, `w` real part). -/
structure Quat where
  x : ℝ
  y : ℝ
  z : ℝ
  w : ℝ

instance : Add Quat := ⟨fun a b => ⟨a.x + b.x, a.y + b.y, a.z + b.z, a.w + b.w⟩⟩

instance : Sub Quat := ⟨fun a b => ⟨a.x - b.x, a.y - b.y, a.z - b.z, a.w - b.w⟩⟩

instance : Neg Quat := ⟨fun a => ⟨-a.x, -a.y, -a.z, -a.w⟩⟩

instance : SMul ℝ Quat := ⟨fun r a => ⟨r * a.x, r * a.y, r * a.z, r * a.w⟩⟩

/-- glam `Quat::IDENTITY`. -/
def Quat.identity : Quat := ⟨0, 0, 0, 1⟩

/-- glam `Quat::mul` (Hamilton product, `self * rhs`). -/
def Quat.mul (a b : Quat) : Quat :=
  ⟨a.w * b.x + a.x * b.w + a.y * b.z - a.z * b.y,
   a.w * b.y - a.x * b.z + a.y * b.w + a.z * b.x,
   a.w * b.z + a.x * b.y - a.y * b.x + a.z * b.w,
   a.w * b.w - a.x * b.x - a.y * b.y - a.z * b.z⟩

/-- glam `Quat::dot`. -/
def Quat.dot (a b : Quat) : ℝ := a.x * b.x + a.y * b.y + a.z * b.z + a.w * b.w

/-- glam `Quat::length`. -/
def Quat.length (q : Quat) : ℝ := Real.sqrt (q.dot q)

/-- glam `Quat::normalize` (`self * self.length().recip()`). -/
def Quat.normalize (q : Quat) : Quat := (q.length)⁻¹ • q

/-- glam `Quat * Vec3`: rotation action
`v * (w*w - b.dot(b)) + b * (v.dot(b) * 2) + b.cross(v) * (w * 2)`
with `b` the imaginary part. -/
def Quat.mulVec3 (q : Quat) (v : Vec3) : Vec3 :=
  let b : Vec3 := ⟨q.x, q.y, q.z⟩
  (q.w * q.w - b.dot b) • v + (2 * v.dot b) • b + (2 * q.w) • (b.cross v)

/-- glam `Quat::from_axis_angle` (axis assumed unit by the library). -/
def Quat.fromAxisAngle (axis : Vec3) (angle : ℝ) : Quat :=
  ⟨axis.x * Real.sin (angle / 2), axis.y * Real.sin (angle / 2),
   axis.z * Real.sin (angle / 2), Real.cos (angle / 2)⟩

/-- glam `Quat::from_rotation_arc`: identity in the near-parallel case
(`dot > 1 - 2 * f32::EPSILON`, i.e. `dot > 1 - 2⁻²²`), a half-turn about an
orthonormal axis in the near-antiparallel case, shortest arc otherwise. -/
def Quat.fromRotationArc (vfrom vto : Vec3) : Quat :=
  let oneMinusEps : ℝ := 1 - 1 / 4194304
  let d := vfrom.dot vto
  if oneMinusEps < d then Quat.identity
  else if d < -oneMinusEps then Quat.fromAxisAngle vfrom.anyOrthonormalVector Real.pi
  else
    let c := vfrom.cross vto
    Quat.normalize ⟨c.x, c.y, c.z, 1 + d⟩

/-- glam `Quat::from_rotation_axes` (used by `Quat::from_mat3`, DirectXMath
`XMQuaternionRotationMatrix` branch scheme); `xAxis`, `yAxis`, `zAxis` are the
matrix columns. -/
def Quat.fromRotationAxes (xAxis yAxis zAxis : Vec3) : Quat :=
  let m00 := xAxis.x; let m01 := xAxis.y; let m02 := xAxis.z
  let m10 := yAxis.x; let m11 := yAxis.y; let m12 := yAxis.z
  let m20 := zAxis.x; let m21 := zAxis.y; let m22 := zAxis.z
  if m22 ≤ 0 then
    let dif10 := m11 - m00
    let omm22 := 1 - m22
    if dif10 ≤ 0 then
      let fourXsq := omm22 - dif10
      let inv4x := 1 / (2 * Real.sqrt fourXsq)
      ⟨fourXsq * inv4x, (m01 + m10) * inv4x, (m02 + m20) * inv4x, (m12 - m21) * inv4x⟩
    else
      let fourYsq := omm22 + dif10
      let inv4y := 1 / (2 * Real.sqrt fourYsq)
      ⟨(m01 + m10) * inv4y, fourYsq * inv4y, (m12 + m21) * inv4y, (m20 - m02) * inv4y⟩
  else
    let sum10 := m11 + m00
    let opm22 := 1 + m22
    if sum10 ≤ 0 then
      let fourZsq := opm22 - sum10
      let inv4z := 1 / (2 * Real.sqrt fourZsq)
      ⟨(m02 + m20) * inv4z, (m12 + m21) * inv4z, fourZsq * inv4z, (m01 - m10) * inv4z⟩
    else
      let fourWsq := opm22 + sum10
      let inv4w := 1 / (2 * Real.sqrt fourWsq)
      ⟨(m12 - m21) * inv4w, (m20 - m02) * inv4w, (m01 - m10) * inv4w, fourWsq * inv4w⟩

/-- glam `Quat::lerp` (`(start + (end * bias - start) * s).normalize()` with
`bias = 1` when the dot product is nonnegative, else `-1`). -/
def Quat.lerp (q qend : Quat) (s : ℝ) : Quat :=
  let d := q.dot qend
  let bias : ℝ := if 0 ≤ d then 1 else -1
  Quat.normalize (q + s • (bias • qend - q))

/-- glam `Quat::slerp`: flip the end quaternion into the same hemisphere, then
normalized-lerp above the `0.9995` dot threshold, else the sine-weighted
spherical interpolation (`acos_approx` modelled by `Real.arccos`, which also
clamps its argument). -/
def Quat.slerp (q qend : Quat) (s : ℝ) : Quat :=
  let d := q.dot qend
  let qend' := if d < 0 then -qend else qend
  let d' := if d < 0 then -d else d
  if 0.9995 < d' then Quat.lerp q qend' s
  else
    let theta := Real.arccos d'
    let scale1 := Real.sin (theta * (1 - s))
    let scale2 := Real.sin (theta * s)
    (Real.sin theta)⁻¹ • (scale1 • q + scale2 • qend')

/-- Model of bevy `Transform` (translation, rotation, scale). -/
structure Transform where
  translation : Vec3
  rotation : Quat
  scale : Vec3

/-- bevy `Transform::local_x` (`self.rotation * Vec3::X`). -/
def Transform.localX (t : Transform) : Vec3 := t.rotation.mulVec3 ⟨1, 0, 0⟩

/-- bevy `Transform::local_z` (`self.rotation * Vec3::Z`). -/
def Transform.localZ (t : Transform) : Vec3 := t.rotation.mulVec3 ⟨0, 0, 1⟩

/-- bevy `Transform::right` (`self.local_x()`). -/
def Transform.right (t : Transform) : Vec3 := t.localX

/-- bevy `Transform::forward` (`-self.local_z()`). -/
def Transform.forward (t : Transform) : Vec3 := -t.localZ

/-- bevy `Transform::rotate` (`self.rotation = rotation * self.rotation`). -/
def Transform.rotate (t : Transform) (rotation : Quat) : Transform :=
  { t with rotation := rotation.mul t.rotation }

/-- bevy `Transform::rotate_axis` (`self.rotate(Quat::from_axis_angle(axis, angle))`). -/
def Transform.rotateAxis (t : Transform) (axis : Vec3) (angle : ℝ) : Transform :=
  t.rotate (Quat.fromAxisAngle axis angle)

/-- bevy `Transform::rotate_around`: translation moves to
`point + rotation * (translation - point)`, rotation is pre-multiplied. -/
def Transform.rotateAround (t : Transform) (point : Vec3) (rotation : Quat) : Transform :=
  { t with
    translation := point + rotation.mulVec3 (t.translation - point)
    rotation := rotation.mul t.rotation }

/-- bevy `Transform::look_to`: build the orthonormal frame
`back = -direction.normalize()`, `right = up.cross(back).normalize()`,
`up' = back.cross(right)` and set rotation from `Quat::from_mat3` of its columns. -/
def Transform.lookTo (t : Transform) (direction up : Vec3) : Transform :=
  let back := -direction.normalize
  let right := (up.cross back).normalize
  let upColumn := back.cross right
  { t with rotation := Quat.fromRotationAxes right upColumn back }

/-- bevy `Transform::look_at` (`self.look_to(target - self.translation, up)`). -/
def Transform.lookAt (t : Transform) (target up : Vec3) : Transform :=
  t.lookTo (target - t.translation) up

/-- bevy `Transform::looking_at` (owned variant of `look_at`). -/
def Transform.lookingAt (t : Transform) (target up : Vec3) : Transform :=
  t.lookAt target up

/-- bevy `Transform::from_translation` (identity rotation, unit scale). -/
def Transform.fromTranslation (v : Vec3) : Transform := ⟨v, Quat.identity, ⟨1, 1, 1⟩⟩

/-- bevy `Transform::with_translation`. -/
def Transform.withTranslation (t : Transform) (v : Vec3) : Transform :=
  { t with translation := v }

/-- Rust `f32::clamp` (`if self < min { min } else if self > max { max } else { self }`). -/
def clampReal (x lo hi : ℝ) : ℝ := if x < lo then lo else if hi < x then hi else x

/-- Modelled from the spec: the first-person entries of the configuration
snapshot (`GameConfig` lives in `file_system_interaction::config`, outside
`src/`): smoothing rates and pitch limits (§3, §4.2). -/
structure FirstPersonConfig where
  translation_smoothing : ℝ
  rotation_smoothing : ℝ
  most_acute_from_above : ℝ
  most_acute_from_below : ℝ

/-- Modelled from the spec: the third-person entries of the configuration
snapshot (§3, §4.3): asymmetric translation smoothing, pitch limits, zoom
speed, orbit distance bounds and obstacle clearance. -/
structure ThirdPersonConfig where
  translation_smoothing_going_further : ℝ
  translation_smoothing_going_closer : ℝ
  most_acute_from_above : ℝ
  most_acute_from_below : ℝ
  zoom_speed : ℝ
  min_distance : ℝ
  max_distance : ℝ
  min_distance_to_objects : ℝ

/-- Modelled from the spec: the camera section of the configuration snapshot
(§3): mouse sensitivities plus the per-mode sections above. -/
structure CameraConfig where
  mouse_sensitivity_x : ℝ
  mouse_sensitivity_y : ℝ
  first_person : FirstPersonConfig
  third_person : ThirdPersonConfig

/-- Modelled from the spec: the immutable configuration snapshot handed to the
cameras (§3); only the camera section is consumed by this core. -/
structure GameConfig where
  camera : CameraConfig

/-- Modelled from the spec: `Vec2Ext::is_approx_zero`
(`util::trait_extension`, outside `src/`) — "near-zero magnitude" (§4.3, §7),
read as squared length below `1e-5`. -/
def Vec2.isApproxZero (v : Vec2) : Prop := v.x * v.x + v.y * v.y < 1 / 100000

/-- Modelled from the spec: `Vec3Ext::is_approx_zero`
(`util::trait_extension`, outside `src/`) — "near-zero magnitude" (§4.3, §7),
read as squared length below `1e-5`. -/
def Vec3.isApproxZero (v : Vec3) : Prop := v.lengthSquared < 1 / 100000

instance (v : Vec2) : Decidable v.isApproxZero := by
  unfold Vec2.isApproxZero
  exact inferInstance

instance (v : Vec3) : Decidable v.isApproxZero := by
  unfold Vec3.isApproxZero
  exact inferInstance

/-- Result of splitting a vector along an axis: the projection onto the axis
and the remainder. -/
structure SplitVec3 where
  vertical : Vec3
  horizontal : Vec3

/-- Modelled from the spec: `Vec3Ext::split` (`util::trait_extension`, outside
`src/`) — the horizontal part is "the component of a vector after removing its
projection onto `up_axis`" (§4.3); the vertical part is that projection. -/
def Vec3.split (v up : Vec3) : SplitVec3 :=
  let vertical := (v.dot up) • up
  ⟨vertical, v - vertical⟩

/-- Modelled from the spec: the pitch-clamp utility
(`player_control::camera::util::clamp_pitch`, outside `src/`) — §4.1: compute
the current angle between `forward` and `up`; truncate the proposed delta so
the new angle stays within `[mostAcuteFromAbove, π - mostAcuteFromBelow]`,
else pass it through unchanged. -/
def clampPitchUtil (up forward : Vec3) (angle mostAcuteFromAbove mostAcuteFromBelow : ℝ) : ℝ :=
  let angleToAxis := Real.arccos (forward.dot up / (forward.length * up.length))
  let newAngle := angleToAxis - angle
  if newAngle < mostAcuteFromAbove then angleToAxis - mostAcuteFromAbove
  else if Real.pi - mostAcuteFromBelow < newAngle then angleToAxis - (Real.pi - mostAcuteFromBelow)
  else angle

/-- Model of the per-frame input signal (leafwing `ActionState<CameraAction>`):
`axis_pair(CameraAction::Pan)` yields `pan`, `clamped_value(CameraAction::Zoom)`
yields `zoomValue` clamped to `[-1, 1]`. -/
structure ActionState where
  pan : Option Vec2
  zoomValue : ℝ

/-- leafwing `ActionState::axis_pair` for the pan action. -/
def ActionState.axisPair (a : ActionState) : Option Vec2 := a.pan

/-- leafwing `ActionState::clamped_value` for the zoom action. -/
def ActionState.clampedValue (a : ActionState) : ℝ := clampReal a.zoomValue (-1) 1

/-- Model of rapier `QueryFilter`: `only_fixed()` sets the first flag, the
`EXCLUDE_SENSORS` flag is the second. -/
structure QueryFilter where
  onlyFixed : Bool
  excludeSensors : Bool

/-- Model of rapier `RapierContext` as a ray-cast oracle:
`cast_ray(origin, direction, max_toi, solid, filter)` optionally returns an
entity id and a time of impact. -/
structure RapierContext where
  castRay : Vec3 → Vec3 → ℝ → Bool → QueryFilter → Option (ℕ × ℝ)

/-- The input-interpretation failure surfaced by `update_transform`
(`anyhow` context "Camera movement is not an axis pair"). -/
inductive CameraError where
  | panNotAxisPair
deriving DecidableEq

/-- `FirstPersonCamera` (src/src/player_control/camera/first_person.rs). -/
structure FirstPersonCamera where
  transform : Transform
  look_target : Option Vec3
  up : Vec3
  config : GameConfig

/-- `FirstPersonCamera::forward`. -/
def FirstPersonCamera.forward (c : FirstPersonCamera) : Vec3 := c.transform.forward

/-- `FirstPersonCamera::look_at` (`self.transform.look_at(target, self.up)`). -/
def FirstPersonCamera.lookAt (c : FirstPersonCamera) (target : Vec3) : FirstPersonCamera :=
  { c with transform := c.transform.lookAt target c.up }

/-- `FirstPersonCamera::rotate`: yaw about `up`, pitch about `local_x`,
composed as `yaw_rotation * pitch_rotation` and applied with `Transform::rotate`. -/
def FirstPersonCamera.rotateCamera (c : FirstPersonCamera) (yaw pitch : ℝ) : FirstPersonCamera :=
  let yawRotation := Quat.fromAxisAngle c.up yaw
  let pitchRotation := Quat.fromAxisAngle c.transform.localX pitch
  { c with transform := c.transform.rotate (yawRotation.mul pitchRotation) }

/-- `FirstPersonCamera::clamp_pitch` (delegates to the pitch-clamp utility
with the first-person angle limits). -/
def FirstPersonCamera.clampPitch (c : FirstPersonCamera) (angle : ℝ) : ℝ :=
  clampPitchUtil c.up c.forward angle
    c.config.camera.first_person.most_acute_from_above
    c.config.camera.first_person.most_acute_from_below

/-- `FirstPersonCamera::handle_camera_controls`: sign-inverted sensitivities,
pitch clamped, then `rotate`. -/
def FirstPersonCamera.handleCameraControls (c : FirstPersonCamera) (cameraMovement : Vec2) :
    FirstPersonCamera :=
  let yaw := -cameraMovement.x * c.config.camera.mouse_sensitivity_x
  let pitch := -cameraMovement.y * c.config.camera.mouse_sensitivity_y
  let pitch := c.clampPitch pitch
  c.rotateCamera yaw pitch

/-- `FirstPersonCamera::get_camera_transform`: lerp the translation and slerp
the rotation of the previous rendered transform toward the internal pose, with
factors `min(rate * dt, 1)`. -/
def FirstPersonCamera.getCameraTransform (c : FirstPersonCamera) (dt : ℝ)
    (transform : Transform) : Transform :=
  let translationScale := min (c.config.camera.first_person.translation_smoothing * dt) 1
  let newTranslation := transform.translation.lerp c.transform.translation translationScale
  let rotationScale := min (c.config.camera.first_person.rotation_smoothing * dt) 1
  let newRotation := transform.rotation.slerp c.transform.rotation rotationScale
  { transform with translation := newTranslation, rotation := newRotation }

/-- `FirstPersonCamera::update_transform`: look at the look target when set
(ignoring pan), otherwise read the pan axis pair (failing when it is absent)
and rotate from it; on success smooth toward the internal pose. The mutated
`self` is returned alongside the `Result`. -/
def FirstPersonCamera.updateTransform (c : FirstPersonCamera) (dt : ℝ)
    (cameraActions : ActionState) (transform : Transform) :
    FirstPersonCamera × Except CameraError Transform :=
  match c.look_target with
  | some lookTarget =>
      let c' := c.lookAt lookTarget
      (c', Except.ok (c'.getCameraTransform dt transform))
  | none =>
      match cameraActions.axisPair with
      | none => (c, Except.error CameraError.panNotAxisPair)
      | some cameraMovement =>
          let c' := c.handleCameraControls cameraMovement
          (c', Except.ok (c'.getCameraTransform dt transform))

/-- `LineOfSightCorrection` (src/src/player_control/camera/third_person.rs). -/
inductive LineOfSightCorrection where
  | closer
  | further
deriving DecidableEq

/-- `LineOfSightResult` (src/src/player_control/camera/third_person.rs). -/
structure LineOfSightResult where
  location : Vec3
  correction : LineOfSightCorrection

/-- `ThirdPersonCamera` (src/src/player_control/camera/third_person.rs). -/
structure ThirdPersonCamera where
  transform : Transform
  target : Vec3
  up : Vec3
  secondary_target : Option Vec3
  distance : ℝ
  config : GameConfig

/-- `ThirdPersonCamera::forward`. -/
def ThirdPersonCamera.forward (c : ThirdPersonCamera) : Vec3 := c.transform.forward

/-- `ThirdPersonCamera::rotate_around_target`: yaw about `up`, pitch about
`local_x`, composed and applied as an orbit around `target`. -/
def ThirdPersonCamera.rotateAroundTarget (c : ThirdPersonCamera) (yaw pitch : ℝ) :
    ThirdPersonCamera :=
  let yawRotation := Quat.fromAxisAngle c.up yaw
  let pitchRotation := Quat.fromAxisAngle c.transform.localX pitch
  let pivot := c.target
  let rotation := yawRotation.mul pitchRotation
  { c with transform := c.transform.rotateAround pivot rotation }

/-- `ThirdPersonCamera::clamp_pitch` (delegates to the pitch-clamp utility
with the third-person angle limits). -/
def ThirdPersonCamera.clampPitch (c : ThirdPersonCamera) (angle : ℝ) : ℝ :=
  clampPitchUtil c.up c.forward angle
    c.config.camera.third_person.most_acute_from_above
    c.config.camera.third_person.most_acute_from_below

/-- `ThirdPersonCamera::handle_camera_controls`. -/
def ThirdPersonCamera.handleCameraControls (c : ThirdPersonCamera) (cameraMovement : Vec2) :
    ThirdPersonCamera :=
  let yaw := -cameraMovement.x * c.config.camera.mouse_sensitivity_x
  let pitch := -cameraMovement.y * c.config.camera.mouse_sensitivity_y
  let pitch := c.clampPitch pitch
  c.rotateAroundTarget yaw pitch

/-- `ThirdPersonCamera::zoom`: scale the input by `zoom_speed`, subtract from
`distance` and clamp into `[min_distance, max_distance]`. -/
def ThirdPersonCamera.zoom (c : ThirdPersonCamera) (zoomInput : ℝ) : ThirdPersonCamera :=
  let zoomSpeed := c.config.camera.third_person.zoom_speed
  let zoomAmount := zoomInput * zoomSpeed
  let minDistance := c.config.camera.third_person.min_distance
  let maxDistance := c.config.camera.third_person.max_distance
  { c with distance := clampReal (c.distance - zoomAmount) minDistance maxDistance }

/-- `ThirdPersonCamera::move_eye_to_align_target_with`: skip when the
horizontal pivot-to-secondary direction is approximately zero, else orbit the
pose around the pivot by the shortest arc taking the horizontal eye-to-target
direction to it. -/
def ThirdPersonCamera.moveEyeToAlignTargetWith (c : ThirdPersonCamera)
    (secondaryTarget : Vec3) : ThirdPersonCamera :=
  let targetToSecondaryTarget := ((secondaryTarget - c.target).split c.up).horizontal
  if targetToSecondaryTarget.isApproxZero then c
  else
    let targetToSecondaryTarget := targetToSecondaryTarget.normalize
    let eyeToTarget := (((c.target - c.transform.translation).split c.up).horizontal).normalize
    let rotation := Quat.fromRotationArc eyeToTarget targetToSecondaryTarget
    let pivot := c.target
    { c with transform := c.transform.rotateAround pivot rotation }

/-- `ThirdPersonCamera::get_raycast_distance`: cast a solid ray against fixed,
non-sensor geometry up to `distance`; a hit yields `toi -
min_distance_to_objects`, otherwise the full `distance`. -/
def ThirdPersonCamera.getRaycastDistance (c : ThirdPersonCamera) (origin direction : Vec3)
    (rapierContext : RapierContext) : ℝ :=
  let maxToi := c.distance
  let solid := true
  let filter : QueryFilter := ⟨true, true⟩
  let minDistanceToObjects := c.config.camera.third_person.min_distance_to_objects
  match rapierContext.castRay origin direction maxToi solid filter with
  | some (_, toi) => toi - minDistanceToObjects
  | none => maxToi

/-- `ThirdPersonCamera::keep_line_of_sight`: resolve the usable distance along
`-forward` from `target`, place the eye there, and classify the move as
`Closer` exactly when the new squared distance undercuts the old one by more
than `1e-3`. -/
def ThirdPersonCamera.keepLineOfSight (c : ThirdPersonCamera)
    (rapierContext : RapierContext) : LineOfSightResult :=
  let origin := c.target
  let direction := -c.forward
  let distance := c.getRaycastDistance origin direction rapierContext
  let location := origin + distance • direction
  let originalDistance := c.target - c.transform.translation
  let correction :=
    if distance * distance < originalDistance.lengthSquared - 1 / 1000 then
      LineOfSightCorrection.closer
    else LineOfSightCorrection.further
  ⟨location, correction⟩

/-- `ThirdPersonCamera::place_eye_in_valid_position`: move the eye to the
line-of-sight location and surface the correction classification. -/
def ThirdPersonCamera.placeEyeInValidPosition (c : ThirdPersonCamera)
    (rapierContext : RapierContext) : ThirdPersonCamera × LineOfSightCorrection :=
  let result := c.keepLineOfSight rapierContext
  ({ c with transform := { c.transform with translation := result.location } },
   result.correction)

/-- `ThirdPersonCamera::get_camera_transform`: select the translation
smoothing rate by the line-of-sight correction, then lerp/slerp exactly as the
first-person camera does (the rotation rate is the shared first-person one). -/
def ThirdPersonCamera.getCameraTransform (c : ThirdPersonCamera) (dt : ℝ)
    (transform : Transform) (lineOfSightCorrection : LineOfSightCorrection) : Transform :=
  let translationSmoothing :=
    if lineOfSightCorrection = LineOfSightCorrection.further then
      c.config.camera.third_person.translation_smoothing_going_further
    else c.config.camera.third_person.translation_smoothing_going_closer
  let translationScale := min (translationSmoothing * dt) 1
  let newTranslation := transform.translation.lerp c.transform.translation translationScale
  let rotationSmoothing := c.config.camera.first_person.rotation_smoothing
  let rotationScale := min (rotationSmoothing * dt) 1
  let newRotation := transform.rotation.slerp c.transform.rotation rotationScale
  { transform with translation := newTranslation, rotation := newRotation }

/-- `ThirdPersonCamera::update_transform`: align toward the secondary target,
read pan (failing when it is not an axis pair), rotate on non-negligible pan,
zoom, resolve line of sight, then smooth toward the internal pose. The mutated
`self` is returned alongside the `Result`. -/
def ThirdPersonCamera.updateTransform (c : ThirdPersonCamera) (dt : ℝ)
    (cameraActions : ActionState) (rapierContext : RapierContext) (transform : Transform) :
    ThirdPersonCamera × Except CameraError Transform :=
  let c1 :=
    match c.secondary_target with
    | some secondaryTarget => c.moveEyeToAlignTargetWith secondaryTarget
    | none => c
  match cameraActions.axisPair with
  | none => (c1, Except.error CameraError.panNotAxisPair)
  | some cameraMovement =>
      let c2 := if ¬cameraMovement.isApproxZero then c1.handleCameraControls cameraMovement
                else c1
      let c3 := c2.zoom cameraActions.clampedValue
      let placed := c3.placeEyeInValidPosition rapierContext
      (placed.1, Except.ok (placed.1.getCameraTransform dt transform placed.2))

/-- Modelled from the spec: `FixedAngleCamera`
(`player_control::camera::FixedAngleCamera`, outside `src/`) — §4.4 specifies
its contract as exposing `target`, `up_axis`, `distance`, `secondary_target`,
a transform and the configuration. -/
structure FixedAngleCamera where
  transform : Transform
  target : Vec3
  up : Vec3
  secondary_target : Option Vec3
  distance : ℝ
  config : GameConfig

/-- `impl From<&FirstPersonCamera> for ThirdPersonCamera`: the old position
becomes the pivot, the eye steps back by the configured minimum distance along
`forward` and looks at the pivot. -/
def ThirdPersonCamera.fromFirstPerson (c : FirstPersonCamera) : ThirdPersonCamera :=
  let target := c.transform.translation
  let distance := c.config.camera.third_person.min_distance
  let eye := target - distance • c.forward
  let up := c.up
  let eyeTransform := (Transform.fromTranslation eye).lookingAt target up
  { transform := eyeTransform
    target := target
    up := up
    secondary_target := c.look_target
    distance := distance
    config := c.config }

/-- `impl From<&FixedAngleCamera> for ThirdPersonCamera`: tilt the fixed-angle
pose about its own right axis by `most_acute_from_above`, copy the rest. -/
def ThirdPersonCamera.fromFixedAngle (c : FixedAngleCamera) : ThirdPersonCamera :=
  let transform := c.transform.rotateAxis c.transform.right
    c.config.camera.third_person.most_acute_from_above
  { transform := transform
    target := c.target
    up := c.up
    secondary_target := c.secondary_target
    distance := c.distance
    config := c.config }

/-- `impl From<&ThirdPersonCamera> for FirstPersonCamera`: jump into the
pivot, keep the orientation, carry the secondary target, up axis and config. -/
def FirstPersonCamera.fromThirdPerson (c : ThirdPersonCamera) : FirstPersonCamera :=
  { transform := c.transform.withTranslation c.target
    look_target := c.secondary_target
    up := c.up
    config := c.config }

/-! ### Helper lemmas -/

lemma clampReal_mem (x lo hi : ℝ) (h : lo ≤ hi) :
    lo ≤ clampReal x lo hi ∧ clampReal x lo hi ≤ hi := by
  unfold clampReal
  split
  · exact ⟨le_refl lo, h⟩
  · split
    · exact ⟨h, le_refl hi⟩
    · constructor <;> linarith

@[simp] lemma moveEye_target (c : ThirdPersonCamera) (s : Vec3) :
    (c.moveEyeToAlignTargetWith s).target = c.target := by
  unfold ThirdPersonCamera.moveEyeToAlignTargetWith
  by_cases h : (((s - c.target).split c.up).horizontal).isApproxZero <;> simp [h]

@[simp] lemma moveEye_up (c : ThirdPersonCamera) (s : Vec3) :
    (c.moveEyeToAlignTargetWith s).up = c.up := by
  unfold ThirdPersonCamera.moveEyeToAlignTargetWith
  by_cases h : (((s - c.target).split c.up).horizontal).isApproxZero <;> simp [h]

@[simp] lemma moveEye_secondary (c : ThirdPersonCamera) (s : Vec3) :
    (c.moveEyeToAlignTargetWith s).secondary_target = c.secondary_target := by
  unfold ThirdPersonCamera.moveEyeToAlignTargetWith
  by_cases h : (((s - c.target).split c.up).horizontal).isApproxZero <;> simp [h]

@[simp] lemma moveEye_distance (c : ThirdPersonCamera) (s : Vec3) :
    (c.moveEyeToAlignTargetWith s).distance = c.distance := by
  unfold ThirdPersonCamera.moveEyeToAlignTargetWith
  by_cases h : (((s - c.target).split c.up).horizontal).isApproxZero <;> simp [h]

@[simp] lemma moveEye_config (c : ThirdPersonCamera) (s : Vec3) :
    (c.moveEyeToAlignTargetWith s).config = c.config := by
  unfold ThirdPersonCamera.moveEyeToAlignTargetWith
  by_cases h : (((s - c.target).split c.up).horizontal).isApproxZero <;> simp [h]

@[simp] lemma handleControls_target (c : ThirdPersonCamera) (m : Vec2) :
    (c.handleCameraControls m).target = c.target := rfl

@[simp] lemma handleControls_up (c : ThirdPersonCamera) (m : Vec2) :
    (c.handleCameraControls m).up = c.up := rfl

@[simp] lemma handleControls_secondary (c : ThirdPersonCamera) (m : Vec2) :
    (c.handleCameraControls m).secondary_target = c.secondary_target := rfl

@[simp] lemma handleControls_distance (c : ThirdPersonCamera) (m : Vec2) :
    (c.handleCameraControls m).distance = c.distance := rfl

@[simp] lemma handleControls_config (c : ThirdPersonCamera) (m : Vec2) :
    (c.handleCameraControls m).config = c.config := rfl

@[simp] lemma zoom_target (c : ThirdPersonCamera) (z : ℝ) : (c.zoom z).target = c.target := rfl

@[simp] lemma zoom_up (c : ThirdPersonCamera) (z : ℝ) : (c.zoom z).up = c.up := rfl

@[simp] lemma zoom_secondary (c : ThirdPersonCamera) (z : ℝ) :
    (c.zoom z).secondary_target = c.secondary_target := rfl

@[simp] lemma zoom_config (c : ThirdPersonCamera) (z : ℝ) : (c.zoom z).config = c.config := rfl

lemma zoom_distance (c : ThirdPersonCamera) (z : ℝ) :
    (c.zoom z).distance = clampReal (c.distance - z * c.config.camera.third_person.zoom_speed)
      c.config.camera.third_person.min_distance c.config.camera.third_person.max_distance := rfl

@[simp] lemma placeEye_target (c : ThirdPersonCamera) (ctx : RapierContext) :
    (c.placeEyeInValidPosition ctx).1.target = c.target := rfl

@[simp] lemma placeEye_up (c : ThirdPersonCamera) (ctx : RapierContext) :
    (c.placeEyeInValidPosition ctx).1.up = c.up := rfl

@[simp] lemma placeEye_secondary (c : ThirdPersonCamera) (ctx : RapierContext) :
    (c.placeEyeInValidPosition ctx).1.secondary_target = c.secondary_target := rfl

@[simp] lemma placeEye_distance (c : ThirdPersonCamera) (ctx : RapierContext) :
    (c.placeEyeInValidPosition ctx).1.distance = c.distance := rfl

@[simp] lemma placeEye_config (c : ThirdPersonCamera) (ctx : RapierContext) :
    (c.placeEyeInValidPosition ctx).1.config = c.config := rfl

lemma zoom_mem (c : ThirdPersonCamera) (z : ℝ)
    (h : c.config.camera.third_person.min_distance ≤ c.config.camera.third_person.max_distance) :
    c.config.camera.third_person.min_distance ≤ (c.zoom z).distance ∧
      (c.zoom z).distance ≤ c.config.camera.third_person.max_distance := by
  rw [zoom_distance]
  exact clampReal_mem _ _ _ h

lemma foldl_zoom_config (zs : List ℝ) (c : ThirdPersonCamera) :
    (zs.foldl ThirdPersonCamera.zoom c).config = c.config := by
  induction zs generalizing c with
  | nil => rfl
  | cons z zs ih => simpa using ih (c.zoom z)

lemma foldl_zoom_mem (zs : List ℝ) (c : ThirdPersonCamera)
    (hmm : c.config.camera.third_person.min_distance ≤
      c.config.camera.third_person.max_distance)
    (hlo : c.config.camera.third_person.min_distance ≤ c.distance)
    (hhi : c.distance ≤ c.config.camera.third_person.max_distance) :
    c.config.camera.third_person.min_distance ≤ (zs.foldl ThirdPersonCamera.zoom c).distance ∧
      (zs.foldl ThirdPersonCamera.zoom c).distance ≤
        c.config.camera.third_person.max_distance := by
  induction zs generalizing c with
  | nil => exact ⟨hlo, hhi⟩
  | cons z zs ih =>
      have hz := zoom_mem c z hmm
      have hcfg : (c.zoom z).config = c.config := rfl
      simpa [List.foldl, hcfg] using ih (c.zoom z) (by rw [hcfg]; exact hmm)
        (by rw [hcfg]; exact hz.1) (by rw [hcfg]; exact hz.2)

/-! ### Sample data used by witnesses -/

/-- A concrete configuration for witness instantiations. -/
def sampleConfig : GameConfig :=
  ⟨⟨1, 1, ⟨1, 1, 1, 1⟩, ⟨1, 1, 1, 1, 1, 1, 10, 1 / 2⟩⟩⟩

/-- A concrete transform: eye at `(2, 0, 0)`, identity orientation. -/
def sampleTransform : Transform := ⟨⟨2, 0, 0⟩, Quat.identity, ⟨1, 1, 1⟩⟩

/-- A concrete third-person camera: eye `(2,0,0)`, pivot `(-2,0,0)`, up `Y`. -/
def sampleThirdPerson : ThirdPersonCamera :=
  ⟨sampleTransform, ⟨-2, 0, 0⟩, ⟨0, 1, 0⟩, none, 5, sampleConfig⟩

/-- A collision world whose ray casts never hit. -/
def noHitContext : RapierContext := ⟨fun _ _ _ _ _ => none⟩

/-! ### Claims -/

/-- C1: `keep_line_of_sight` places the eye at `target + d • (-forward)` where
the resolved distance `d` is exactly `hit_distance - min_distance_to_objects`
on a ray hit and the full current `distance` otherwise; given the ray-cast
contract (a hit's time of impact never exceeds the requested maximum) and a
nonnegative clearance margin, `d` never exceeds the camera's current
`distance`. -/
theorem C1_keepLineOfSight_resolved_distance (c : ThirdPersonCamera) (ctx : RapierContext)
    (hmin : 0 ≤ c.config.camera.third_person.min_distance_to_objects)
    (hcast : ∀ e toi, ctx.castRay c.target (-c.forward) c.distance true ⟨true, true⟩ =
      some (e, toi) → toi ≤ c.distance) :
    (c.keepLineOfSight ctx).location =
      c.target + (c.getRaycastDistance c.target (-c.forward) ctx) • (-c.forward) ∧
    c.getRaycastDistance c.target (-c.forward) ctx ≤ c.distance ∧
    (∀ e toi, ctx.castRay c.target (-c.forward) c.distance true ⟨true, true⟩ = some (e, toi) →
      c.getRaycastDistance c.target (-c.forward) ctx =
        toi - c.config.camera.third_person.min_distance_to_objects) ∧
    (ctx.castRay c.target (-c.forward) c.distance true ⟨true, true⟩ = none →
      c.getRaycastDistance c.target (-c.forward) ctx = c.distance) := by
  refine ⟨rfl, ?_, ?_, ?_⟩
  · rcases h : ctx.castRay c.target (-c.forward) c.distance true ⟨true, true⟩ with _ | ⟨e, toi⟩
    · simp [ThirdPersonCamera.getRaycastDistance, h]
    · have := hcast e toi h
      simp only [ThirdPersonCamera.getRaycastDistance, h]
      linarith
  · intro e toi h
    simp [ThirdPersonCamera.getRaycastDistance, h]
  · intro h
    simp [ThirdPersonCamera.getRaycastDistance, h]

/-- Witness for C1 at a concrete camera and a world with no obstructions. -/
theorem C1_witness :
    (0 ≤ sampleThirdPerson.config.camera.third_person.min_distance_to_objects ∧
      (∀ e toi, noHitContext.castRay sampleThirdPerson.target (-sampleThirdPerson.forward)
        sampleThirdPerson.distance true ⟨true, true⟩ = some (e, toi) →
          toi ≤ sampleThirdPerson.distance)) ∧
    ((sampleThirdPerson.keepLineOfSight noHitContext).location =
      sampleThirdPerson.target +
        (sampleThirdPerson.getRaycastDistance sampleThirdPerson.target
          (-sampleThirdPerson.forward) noHitContext) • (-sampleThirdPerson.forward) ∧
    sampleThirdPerson.getRaycastDistance sampleThirdPerson.target (-sampleThirdPerson.forward)
        noHitContext ≤ sampleThirdPerson.distance ∧
    (∀ e toi, noHitContext.castRay sampleThirdPerson.target (-sampleThirdPerson.forward)
        sampleThirdPerson.distance true ⟨true, true⟩ = some (e, toi) →
      sampleThirdPerson.getRaycastDistance sampleThirdPerson.target (-sampleThirdPerson.forward)
          noHitContext =
        toi - sampleThirdPerson.config.camera.third_person.min_distance_to_objects) ∧
    (noHitContext.castRay sampleThirdPerson.target (-sampleThirdPerson.forward)
        sampleThirdPerson.distance true ⟨true, true⟩ = none →
      sampleThirdPerson.getRaycastDistance sampleThirdPerson.target (-sampleThirdPerson.forward)
          noHitContext = sampleThirdPerson.distance)) := by
  have h1 : (0 : ℝ) ≤ sampleThirdPerson.config.camera.third_person.min_distance_to_objects := by
    norm_num [sampleThirdPerson, sampleConfig]
  have h2 : ∀ e toi, noHitContext.castRay sampleThirdPerson.target (-sampleThirdPerson.forward)
      sampleThirdPerson.distance true ⟨true, true⟩ = some (e, toi) →
        toi ≤ sampleThirdPerson.distance := by
    intro e toi h
    simp [noHitContext] at h
  exact ⟨⟨h1, h2⟩, C1_keepLineOfSight_resolved_distance sampleThirdPerson noHitContext h1 h2⟩

/-- C2: whenever the configuration has `min_distance ≤ max_distance`, any
successful `update_transform` leaves the post-state `distance` in
`[min_distance, max_distance]`, whatever the starting `distance` was; the same
holds after any nonempty sequence of `zoom` operations with arbitrary inputs. -/
theorem C2_distance_invariant (c : ThirdPersonCamera) (dt : ℝ) (a : ActionState)
    (ctx : RapierContext) (tr : Transform)
    (hmm : c.config.camera.third_person.min_distance ≤
      c.config.camera.third_person.max_distance) :
    (∀ c' r, c.updateTransform dt a ctx tr = (c', Except.ok r) →
      c.config.camera.third_person.min_distance ≤ c'.distance ∧
        c'.distance ≤ c.config.camera.third_person.max_distance) ∧
    (∀ zs : List ℝ, zs ≠ [] →
      c.config.camera.third_person.min_distance ≤
          (zs.foldl ThirdPersonCamera.zoom c).distance ∧
        (zs.foldl ThirdPersonCamera.zoom c).distance ≤
          c.config.camera.third_person.max_distance) := by
  constructor
  · intro c' r h
    unfold ThirdPersonCamera.updateTransform at h
    rcases hpan : a.axisPair with _ | m
    · rw [hpan] at h
      simp at h
    · rw [hpan] at h
      simp only [Prod.mk.injEq] at h
      obtain ⟨hc', -⟩ := h
      subst hc'
      set c1 := match c.secondary_target with
        | some secondaryTarget => c.moveEyeToAlignTargetWith secondaryTarget
        | none => c with hc1
      have hcfg1 : c1.config = c.config := by
        rw [hc1]
        rcases c.secondary_target with _ | s
        · rfl
        · exact moveEye_config c s
      set c2 := if ¬m.isApproxZero then c1.handleCameraControls m else c1 with hc2
      have hcfg2 : c2.config = c.config := by
        rw [hc2]
        split
        · rw [handleControls_config, hcfg1]
        · exact hcfg1
      rw [placeEye_distance]
      have := zoom_mem c2 a.clampedValue (by rw [hcfg2]; exact hmm)
      rw [hcfg2] at this
      exact this
  · intro zs hzs
    rcases zs with _ | ⟨z, zs⟩
    · exact absurd rfl hzs
    · have hz := zoom_mem c z hmm
      have hcfg : (c.zoom z).config = c.config := rfl
      have := foldl_zoom_mem zs (c.zoom z) (by rw [hcfg]; exact hmm)
        (by rw [hcfg]; exact hz.1) (by rw [hcfg]; exact hz.2)
      rw [hcfg] at this
      simpa [List.foldl] using this

/-- Witness for C2 at a concrete camera, a pan-carrying input and a one-step
zoom sequence. -/
theorem C2_witness :
    (sampleThirdPerson.config.camera.third_person.min_distance ≤
      sampleThirdPerson.config.camera.third_person.max_distance) ∧
    ((∀ c' r, sampleThirdPerson.updateTransform 1 ⟨some ⟨0, 0⟩, 0⟩ noHitContext
        sampleTransform = (c', Except.ok r) →
      sampleThirdPerson.config.camera.third_person.min_distance ≤ c'.distance ∧
        c'.distance ≤ sampleThirdPerson.config.camera.third_person.max_distance) ∧
    (∀ zs : List ℝ, zs ≠ [] →
      sampleThirdPerson.config.camera.third_person.min_distance ≤
          (zs.foldl ThirdPersonCamera.zoom sampleThirdPerson).distance ∧
        (zs.foldl ThirdPersonCamera.zoom sampleThirdPerson).distance ≤
          sampleThirdPerson.config.camera.third_person.max_distance)) := by
  have hmm : sampleThirdPerson.config.camera.third_person.min_distance ≤
      sampleThirdPerson.config.camera.third_person.max_distance := by
    norm_num [sampleThirdPerson, sampleConfig]
  exact ⟨hmm, C2_distance_invariant sampleThirdPerson 1 ⟨some ⟨0, 0⟩, 0⟩ noHitContext
    sampleTransform hmm⟩

/-- C3: `keep_line_of_sight` classifies the correction as `Closer` iff the
squared resolved distance is strictly below the squared distance from `target`
to the current eye minus `1e-3` (else `Further`), and `get_camera_transform`
lerps the translation with rate `translation_smoothing_going_further` exactly
for `Further` (else `_going_closer`) while always slerping the rotation with
the first-person rotation-smoothing rate. -/
theorem C3_correction_classification_and_smoothing (c : ThirdPersonCamera)
    (ctx : RapierContext) (dt : ℝ) (tr : Transform) :
    ((c.keepLineOfSight ctx).correction = LineOfSightCorrection.closer ↔
      (c.getRaycastDistance c.target (-c.forward) ctx) *
          (c.getRaycastDistance c.target (-c.forward) ctx) <
        (c.target - c.transform.translation).lengthSquared - 1 / 1000) ∧
    (∀ corr, (c.getCameraTransform dt tr corr).translation =
        tr.translation.lerp c.transform.translation
          (min ((if corr = LineOfSightCorrection.further then
              c.config.camera.third_person.translation_smoothing_going_further
            else c.config.camera.third_person.translation_smoothing_going_closer) * dt) 1) ∧
      (c.getCameraTransform dt tr corr).rotation =
        tr.rotation.slerp c.transform.rotation
          (min (c.config.camera.first_person.rotation_smoothing * dt) 1)) := by
  constructor
  · simp only [ThirdPersonCamera.keepLineOfSight]
    simp
    constructor <;> intro <;> linarith
  · intro corr
    cases corr <;> exact ⟨rfl, rfl⟩

/-- C8: converting a fixed-angle camera to third person tilts the pose about
its own right axis by the configured most-acute-from-above angle (translation
kept) and copies `target`, `up`, `distance`, `secondary_target` and the
configuration verbatim. -/
theorem C8_fixed_angle_conversion (c : FixedAngleCamera) :
    (ThirdPersonCamera.fromFixedAngle c).transform.translation =
      c.transform.translation ∧
    (ThirdPersonCamera.fromFixedAngle c).transform.rotation =
      (Quat.fromAxisAngle c.transform.right
        c.config.camera.third_person.most_acute_from_above).mul c.transform.rotation ∧
    (ThirdPersonCamera.fromFixedAngle c).transform =
      c.transform.rotateAxis c.transform.right
        c.config.camera.third_person.most_acute_from_above ∧
    (ThirdPersonCamera.fromFixedAngle c).target = c.target ∧
    (ThirdPersonCamera.fromFixedAngle c).up = c.up ∧
    (ThirdPersonCamera.fromFixedAngle c).distance = c.distance ∧
    (ThirdPersonCamera.fromFixedAngle c).secondary_target = c.secondary_target ∧
    (ThirdPersonCamera.fromFixedAngle c).config = c.config :=
  ⟨rfl, rfl, rfl, rfl, rfl, rfl, rfl, rfl⟩

/-- C9: converting a third-person camera to first person keeps the orbit
pose's orientation, replaces its position by the orbit `target`, takes the old
`secondary_target` as look target and carries `up` and the configuration over. -/
theorem C9_third_to_first_conversion (c : ThirdPersonCamera) :
    (FirstPersonCamera.fromThirdPerson c).transform.translation = c.target ∧
    (FirstPersonCamera.fromThirdPerson c).transform.rotation = c.transform.rotation ∧
    (FirstPersonCamera.fromThirdPerson c).transform = c.transform.withTranslation c.target ∧
    (FirstPersonCamera.fromThirdPerson c).look_target = c.secondary_target ∧
    (FirstPersonCamera.fromThirdPerson c).up = c.up ∧
    (FirstPersonCamera.fromThirdPerson c).config = c.config :=
  ⟨rfl, rfl, rfl, rfl, rfl, rfl⟩

/-- C10: `update_transform` never changes `target`, `up`, `secondary_target`
or `config`, whether it succeeds or fails; only `transform` and `distance` are
mutated. -/
theorem C10_update_frame_effect (c : ThirdPersonCamera) (dt : ℝ) (a : ActionState)
    (ctx : RapierContext) (tr : Transform) :
    (c.updateTransform dt a ctx tr).1.target = c.target ∧
    (c.updateTransform dt a ctx tr).1.up = c.up ∧
    (c.updateTransform dt a ctx tr).1.secondary_target = c.secondary_target ∧
    (c.updateTransform dt a ctx tr).1.config = c.config := by
  unfold ThirdPersonCamera.updateTransform
  rcases hsec : c.secondary_target with _ | s <;> rcases hpan : a.axisPair with _ | m
  · simp [hsec]
  · by_cases hz : m.isApproxZero <;> simp [hsec, hz]
  · simp [hsec]
  · by_cases hz : m.isApproxZero <;> simp [hsec, hz]

/-- C6: the first-person `update_transform` errors exactly when no look target
is set and the pan input is not an axis pair; with a look target the camera is
oriented toward it by `look_at` with the camera's up axis, the pan input is
never read (the result is independent of the input) and the call succeeds; on
the error path the camera, hence its internal pose, is unchanged. -/
theorem C6_first_person_update_error_behaviour (c : FirstPersonCamera) (dt : ℝ)
    (a : ActionState) (tr : Transform) :
    ((c.updateTransform dt a tr).2 = Except.error CameraError.panNotAxisPair ↔
      c.look_target = none ∧ a.pan = none) ∧
    (∀ t, c.look_target = some t →
      (c.updateTransform dt a tr).1 = c.lookAt t ∧
      (∀ a' : ActionState, c.updateTransform dt a' tr = c.updateTransform dt a tr) ∧
      ∃ r, (c.updateTransform dt a tr).2 = Except.ok r) ∧
    ((c.updateTransform dt a tr).2 = Except.error CameraError.panNotAxisPair →
      (c.updateTransform dt a tr).1 = c) := by
  rcases hlook : c.look_target with _ | t <;> rcases hpan : a.pan with _ | m <;>
    simp [FirstPersonCamera.updateTransform, ActionState.axisPair, hlook, hpan]

/-- Witness for C6: a camera with a set look target updates to the look-at
pose, ignores the pan input and succeeds. -/
theorem C6_witness :
    (FirstPersonCamera.mk sampleTransform (some ⟨0, 0, -5⟩) ⟨0, 1, 0⟩
        sampleConfig).look_target = some ⟨0, 0, -5⟩ ∧
    ((FirstPersonCamera.mk sampleTransform (some ⟨0, 0, -5⟩) ⟨0, 1, 0⟩
        sampleConfig).updateTransform 1 ⟨none, 0⟩ sampleTransform).1 =
      (FirstPersonCamera.mk sampleTransform (some ⟨0, 0, -5⟩) ⟨0, 1, 0⟩
        sampleConfig).lookAt ⟨0, 0, -5⟩ ∧
    (∀ a' : ActionState,
      (FirstPersonCamera.mk sampleTransform (some ⟨0, 0, -5⟩) ⟨0, 1, 0⟩
          sampleConfig).updateTransform 1 a' sampleTransform =
        (FirstPersonCamera.mk sampleTransform (some ⟨0, 0, -5⟩) ⟨0, 1, 0⟩
          sampleConfig).updateTransform 1 ⟨none, 0⟩ sampleTransform) ∧
    ∃ r, ((FirstPersonCamera.mk sampleTransform (some ⟨0, 0, -5⟩) ⟨0, 1, 0⟩
        sampleConfig).updateTransform 1 ⟨none, 0⟩ sampleTransform).2 = Except.ok r := by
  have h := (C6_first_person_update_error_behaviour
    (FirstPersonCamera.mk sampleTransform (some ⟨0, 0, -5⟩) ⟨0, 1, 0⟩ sampleConfig) 1
    ⟨none, 0⟩ sampleTransform).2.1 ⟨0, 0, -5⟩ rfl
  exact ⟨rfl, h.1, h.2.1, h.2.2⟩

/-! ### Component-level helper lemmas for the vector and quaternion models -/

lemma Vec3.add_def (a b : Vec3) : a + b = ⟨a.x + b.x, a.y + b.y, a.z + b.z⟩ := rfl

lemma Vec3.sub_def (a b : Vec3) : a - b = ⟨a.x - b.x, a.y - b.y, a.z - b.z⟩ := rfl

lemma Vec3.neg_def (a : Vec3) : -a = ⟨-a.x, -a.y, -a.z⟩ := rfl

lemma Vec3.smul_def (r : ℝ) (a : Vec3) : r • a = ⟨r * a.x, r * a.y, r * a.z⟩ := rfl

lemma Quat.add_entries (a b : Quat) : a + b = ⟨a.x + b.x, a.y + b.y, a.z + b.z, a.w + b.w⟩ := rfl

lemma Quat.sub_entries (a b : Quat) : a - b = ⟨a.x - b.x, a.y - b.y, a.z - b.z, a.w - b.w⟩ := rfl

lemma Quat.neg_entries (a : Quat) : -a = ⟨-a.x, -a.y, -a.z, -a.w⟩ := rfl

lemma Quat.smul_entries (r : ℝ) (a : Quat) : r • a = ⟨r * a.x, r * a.y, r * a.z, r * a.w⟩ := rfl

lemma Vec3.eq_of_components {a b : Vec3} (hx : a.x = b.x) (hy : a.y = b.y)
    (hz : a.z = b.z) : a = b := by
  cases a
  cases b
  cases hx
  cases hy
  cases hz
  rfl

lemma Quat.eq_of_entries {a b : Quat} (hx : a.x = b.x) (hy : a.y = b.y)
    (hz : a.z = b.z) (hw : a.w = b.w) : a = b := by
  cases a
  cases b
  cases hx
  cases hy
  cases hz
  cases hw
  rfl

lemma Vec3.dot_self_nonneg (v : Vec3) : 0 ≤ v.dot v := by
  unfold Vec3.dot
  nlinarith [sq_nonneg v.x, sq_nonneg v.y, sq_nonneg v.z]

lemma Quat.mulVec3_identity (v : Vec3) : Quat.identity.mulVec3 v = v := by
  refine Vec3.eq_of_components ?_ ?_ ?_ <;>
    simp only [Quat.identity, Quat.mulVec3, Vec3.dot, Vec3.cross, Vec3.smul_def,
      Vec3.add_def] <;> ring

lemma Vec3.split_smul (k : ℝ) (v up : Vec3) :
    ((k • v).split up).horizontal = k • (v.split up).horizontal := by
  refine Vec3.eq_of_components ?_ ?_ ?_ <;>
    simp only [Vec3.split, Vec3.dot, Vec3.smul_def, Vec3.sub_def] <;> ring

lemma Vec3.normalize_smul_pos (k : ℝ) (hk : 0 < k) (v : Vec3) :
    (k • v).normalize = v.normalize := by
  unfold Vec3.normalize Vec3.length
  have hdot : (k • v).dot (k • v) = k ^ 2 * v.dot v := by
    simp only [Vec3.dot, Vec3.smul_def]
    ring
  rw [hdot, Real.sqrt_mul (by positivity), Real.sqrt_sq hk.le]
  refine Vec3.eq_of_components ?_ ?_ ?_ <;> simp only [Vec3.smul_def] <;> rw [mul_inv]
  · linear_combination ((Real.sqrt (v.dot v))⁻¹ * v.x) * mul_inv_cancel₀ hk.ne'
  · linear_combination ((Real.sqrt (v.dot v))⁻¹ * v.y) * mul_inv_cancel₀ hk.ne'
  · linear_combination ((Real.sqrt (v.dot v))⁻¹ * v.z) * mul_inv_cancel₀ hk.ne'

lemma Vec3.dot_normalize_self (v : Vec3) (h : 0 < v.dot v) :
    v.normalize.dot v.normalize = 1 := by
  unfold Vec3.normalize Vec3.length
  have hd : (((Real.sqrt (v.dot v))⁻¹ • v).dot ((Real.sqrt (v.dot v))⁻¹ • v)) =
      ((Real.sqrt (v.dot v))⁻¹) ^ 2 * v.dot v := by
    simp only [Vec3.dot, Vec3.smul_def]
    ring
  rw [hd, inv_pow, Real.sq_sqrt h.le]
  field_simp

lemma moveEye_of_not_approx_zero (c : ThirdPersonCamera) (s : Vec3)
    (hz : ¬(((s - c.target).split c.up).horizontal).isApproxZero) :
    (c.moveEyeToAlignTargetWith s).transform =
      c.transform.rotateAround c.target
        (Quat.fromRotationArc
          ((((c.target - c.transform.translation).split c.up).horizontal).normalize)
          ((((s - c.target).split c.up).horizontal).normalize)) := by
  unfold ThirdPersonCamera.moveEyeToAlignTargetWith
  simp [hz]

/-- C4 counterexample: with the eye at `(2,0,0)` and the pivot at `(-2,0,0)`,
the collinear secondary target `(-1,0,0)` on the near side of the pivot moves
the eye to `(-6,0,0)`, far outside the claimed `1e-5` squared-distance
tolerance. -/
theorem C4_counterexample :
    (sampleThirdPerson.moveEyeToAlignTargetWith ⟨-1, 0, 0⟩).transform.translation =
      ⟨-6, 0, 0⟩ ∧
    ¬(((sampleThirdPerson.moveEyeToAlignTargetWith ⟨-1, 0, 0⟩).transform.translation -
        sampleThirdPerson.transform.translation).lengthSquared < 1 / 100000) := by
  have hs16 : Real.sqrt 16 = 4 := by
    rw [show (16 : ℝ) = 4 ^ 2 by norm_num, Real.sqrt_sq (by norm_num)]
  have hmove : (sampleThirdPerson.moveEyeToAlignTargetWith ⟨-1, 0, 0⟩).transform.translation =
      ⟨-6, 0, 0⟩ := by
    unfold ThirdPersonCamera.moveEyeToAlignTargetWith
    simp only [sampleThirdPerson, sampleTransform, sampleConfig, Vec3.split, Vec3.dot,
      Vec3.sub_def, Vec3.smul_def, Vec3.isApproxZero, Vec3.lengthSquared, Vec3.normalize,
      Vec3.length, Quat.fromRotationArc, Vec3.anyOrthonormalVector, Quat.fromAxisAngle,
      Quat.identity, Transform.rotateAround, Quat.mulVec3, Vec3.cross, Vec3.add_def,
      Vec3.neg_def]
    norm_num [hs16, Real.sqrt_one, Real.sin_pi_div_two, Real.cos_pi_div_two]
  refine ⟨hmove, ?_⟩
  rw [hmove]
  simp only [sampleThirdPerson, sampleTransform, Vec3.sub_def, Vec3.lengthSquared, Vec3.dot]
  norm_num

/-- C4 (amended): secondary-target alignment leaves the eye position unchanged
when the horizontal component of `secondary_target - target` is approximately
zero, and when the secondary target lies beyond the pivot on the ray from the
eye through the pivot (`secondary - target` a positive multiple of
`target - eye`); collinear secondary targets on the near side of the pivot are
not covered (see the counterexample). -/
theorem C4_alignment_noop (c : ThirdPersonCamera) (s : Vec3)
    (h : (((s - c.target).split c.up).horizontal).isApproxZero ∨
      ∃ k : ℝ, 0 < k ∧ s - c.target = k • (c.target - c.transform.translation)) :
    (c.moveEyeToAlignTargetWith s).transform.translation = c.transform.translation := by
  by_cases hz : (((s - c.target).split c.up).horizontal).isApproxZero
  · unfold ThirdPersonCamera.moveEyeToAlignTargetWith
    simp [hz]
  · rcases h with h | ⟨k, hk, hs⟩
    · exact absurd h hz
    · rw [moveEye_of_not_approx_zero c s hz]
      have hsplit : ((s - c.target).split c.up).horizontal =
          k • (((c.target - c.transform.translation).split c.up).horizontal) := by
        rw [hs, Vec3.split_smul]
      have hpos : 0 < (((c.target - c.transform.translation).split c.up).horizontal).dot
          (((c.target - c.transform.translation).split c.up).horizontal) := by
        rcases lt_or_eq_of_le (Vec3.dot_self_nonneg
          (((c.target - c.transform.translation).split c.up).horizontal)) with hlt | heq
        · exact hlt
        · exfalso
          apply hz
          rw [hsplit]
          unfold Vec3.isApproxZero Vec3.lengthSquared
          have : ((k • ((c.target - c.transform.translation).split c.up).horizontal).dot
              (k • ((c.target - c.transform.translation).split c.up).horizontal)) =
              k ^ 2 * ((((c.target - c.transform.translation).split c.up).horizontal).dot
                (((c.target - c.transform.translation).split c.up).horizontal)) := by
            simp only [Vec3.dot, Vec3.smul_def]
            ring
          rw [this, ← heq]
          norm_num
      have hnorm : (((s - c.target).split c.up).horizontal).normalize =
          ((((c.target - c.transform.translation).split c.up).horizontal)).normalize := by
        rw [hsplit, Vec3.normalize_smul_pos k hk]
      have harc : Quat.fromRotationArc
          ((((c.target - c.transform.translation).split c.up).horizontal).normalize)
          ((((s - c.target).split c.up).horizontal).normalize) = Quat.identity := by
        rw [hnorm]
        unfold Quat.fromRotationArc
        rw [if_pos]
        rw [Vec3.dot_normalize_self _ hpos]
        norm_num
      rw [harc]
      simp only [Transform.rotateAround, Quat.mulVec3_identity]
      refine Vec3.eq_of_components ?_ ?_ ?_ <;>
        simp only [Vec3.add_def, Vec3.sub_def] <;> ring

/-- Witness for C4's amended theorem: the far-side collinear secondary target
`(-3,0,0)` from the test suite leaves the eye unchanged. -/
theorem C4_witness :
    ((((⟨-3, 0, 0⟩ : Vec3) - sampleThirdPerson.target).split
        sampleThirdPerson.up).horizontal.isApproxZero ∨
      ∃ k : ℝ, 0 < k ∧ (⟨-3, 0, 0⟩ : Vec3) - sampleThirdPerson.target =
        k • (sampleThirdPerson.target - sampleThirdPerson.transform.translation)) ∧
    (sampleThirdPerson.moveEyeToAlignTargetWith ⟨-3, 0, 0⟩).transform.translation =
      sampleThirdPerson.transform.translation := by
  have h : (((⟨-3, 0, 0⟩ : Vec3) - sampleThirdPerson.target).split
        sampleThirdPerson.up).horizontal.isApproxZero ∨
      ∃ k : ℝ, 0 < k ∧ (⟨-3, 0, 0⟩ : Vec3) - sampleThirdPerson.target =
        k • (sampleThirdPerson.target - sampleThirdPerson.transform.translation) := by
    right
    refine ⟨1 / 4, by norm_num, ?_⟩
    simp only [sampleThirdPerson, sampleTransform, Vec3.sub_def, Vec3.smul_def]
    norm_num
  exact ⟨h, C4_alignment_noop sampleThirdPerson ⟨-3, 0, 0⟩ h⟩

/-! ### Interpolation saturation lemmas -/

lemma Vec3.lerp_one (a b : Vec3) : a.lerp b 1 = b := by
  refine Vec3.eq_of_components ?_ ?_ ?_ <;>
    simp only [Vec3.lerp, Vec3.smul_def, Vec3.sub_def, Vec3.add_def] <;> ring

lemma Quat.dot_neg_right (a b : Quat) : a.dot (-b) = -(a.dot b) := by
  simp only [Quat.dot, Quat.neg_entries]
  ring

lemma Quat.dot_neg_both (b : Quat) : (-b).dot (-b) = b.dot b := by
  simp only [Quat.dot, Quat.neg_entries]
  ring

lemma arccos_lt_pi_of_neg_one_lt {x : ℝ} (h : -1 < x) : Real.arccos x < Real.pi := by
  simp only [Real.arccos]
  have := Real.neg_pi_div_two_lt_arcsin.mpr h
  linarith [Real.pi_pos]

lemma Quat.normalize_of_unit (q : Quat) (h : q.dot q = 1) : q.normalize = q := by
  unfold Quat.normalize Quat.length
  rw [h, Real.sqrt_one]
  refine Quat.eq_of_entries ?_ ?_ ?_ ?_ <;> simp [Quat.smul_entries]

lemma Quat.lerp_at_one (q qend : Quat) (hunit : qend.dot qend = 1) (hd : 0 ≤ q.dot qend) :
    q.lerp qend 1 = qend := by
  have hbody : q + (1 : ℝ) • ((1 : ℝ) • qend - q) = qend := by
    refine Quat.eq_of_entries ?_ ?_ ?_ ?_ <;>
      simp only [Quat.smul_entries, Quat.sub_entries, Quat.add_entries] <;> ring
  simp only [Quat.lerp, hd, if_true]
  rw [hbody]
  exact Quat.normalize_of_unit qend hunit

lemma Quat.slerp_one (q qend : Quat) (hunit : qend.dot qend = 1) :
    q.slerp qend 1 = if 0 ≤ q.dot qend then qend else -qend := by
  by_cases hd : q.dot qend < 0
  · rw [if_neg (not_le.mpr hd)]
    simp only [Quat.slerp, hd, if_true]
    by_cases hthr : (0.9995 : ℝ) < -(q.dot qend)
    · rw [if_pos hthr]
      exact Quat.lerp_at_one q (-qend) (by rw [Quat.dot_neg_both]; exact hunit)
        (by rw [Quat.dot_neg_right]; linarith)
    · rw [if_neg hthr]
      have h1 : -(q.dot qend) < 1 := by
        have := not_lt.mp hthr
        linarith
      have h2 : (-1 : ℝ) < -(q.dot qend) := by linarith
      have hsin : 0 < Real.sin (Real.arccos (-(q.dot qend))) :=
        Real.sin_pos_of_pos_of_lt_pi (Real.arccos_pos.mpr h1) (arccos_lt_pi_of_neg_one_lt h2)
      rw [show (1 : ℝ) - 1 = 0 by norm_num, mul_zero, Real.sin_zero, mul_one]
      refine Quat.eq_of_entries ?_ ?_ ?_ ?_ <;>
        simp only [Quat.smul_entries, Quat.add_entries, Quat.neg_entries] <;>
        field_simp <;> ring
  · rw [if_pos (not_lt.mp hd)]
    simp only [Quat.slerp, hd, if_false]
    by_cases hthr : (0.9995 : ℝ) < q.dot qend
    · rw [if_pos hthr]
      exact Quat.lerp_at_one q qend hunit (not_lt.mp hd)
    · rw [if_neg hthr]
      have h1 : q.dot qend < 1 := by
        have := not_lt.mp hthr
        linarith
      have h2 : (-1 : ℝ) < q.dot qend := by
        have := not_lt.mp hd
        linarith
      have hsin : 0 < Real.sin (Real.arccos (q.dot qend)) :=
        Real.sin_pos_of_pos_of_lt_pi (Real.arccos_pos.mpr h1) (arccos_lt_pi_of_neg_one_lt h2)
      rw [show (1 : ℝ) - 1 = 0 by norm_num, mul_zero, Real.sin_zero, mul_one]
      refine Quat.eq_of_entries ?_ ?_ ?_ ?_ <;>
        simp only [Quat.smul_entries, Quat.add_entries] <;>
        field_simp

/-- A concrete first-person camera with identity orientation and no look
target. -/
def sampleFirstPerson : FirstPersonCamera :=
  ⟨sampleTransform, none, ⟨0, 1, 0⟩, sampleConfig⟩

/-- A previously rendered transform whose rotation quaternion is the negated
identity (the same spatial rotation as the identity, opposite sign). -/
def negIdentityTransform : Transform := ⟨⟨0, 0, 0⟩, ⟨0, 0, 0, -1⟩, ⟨1, 1, 1⟩⟩

/-- C5 counterexample: with saturating smoothing rates (`rate * dt = 1`), one
update step from a rendered rotation of `-identity` toward the internal
identity rotation returns `-identity`, not the internal pose's quaternion —
the returned transform is not *exactly* the internal target pose. -/
theorem C5_counterexample :
    1 ≤ sampleFirstPerson.config.camera.first_person.translation_smoothing * 1 ∧
    1 ≤ sampleFirstPerson.config.camera.first_person.rotation_smoothing * 1 ∧
    (sampleFirstPerson.getCameraTransform 1 negIdentityTransform).rotation ≠
      sampleFirstPerson.transform.rotation := by
  refine ⟨by norm_num [sampleFirstPerson, sampleConfig], by norm_num [sampleFirstPerson,
    sampleConfig], ?_⟩
  have hscale : min (sampleFirstPerson.config.camera.first_person.rotation_smoothing * 1) 1 =
      1 := by
    norm_num [sampleFirstPerson, sampleConfig]
  have hrot : (sampleFirstPerson.getCameraTransform 1 negIdentityTransform).rotation =
      Quat.slerp ⟨0, 0, 0, -1⟩ ⟨0, 0, 0, 1⟩ 1 := by
    show (negIdentityTransform.rotation.slerp sampleFirstPerson.transform.rotation
      (min (sampleFirstPerson.config.camera.first_person.rotation_smoothing * 1) 1)) =
        Quat.slerp ⟨0, 0, 0, -1⟩ ⟨0, 0, 0, 1⟩ 1
    rw [hscale]
    rfl
  rw [hrot]
  rw [Quat.slerp_one ⟨0, 0, 0, -1⟩ ⟨0, 0, 0, 1⟩ (by norm_num [Quat.dot])]
  rw [if_neg (by norm_num [Quat.dot])]
  intro h
  have hw := congrArg Quat.w h
  simp only [Quat.neg_entries, sampleFirstPerson, sampleTransform, Quat.identity] at hw
  norm_num at hw

/-- C5 (amended): in both cameras' update smoothing the returned translation
is the lerp of the previous rendered translation toward the internal
translation with factor `min(translation_smoothing * dt, 1)` (the third-person
rate selected by the line-of-sight correction) and the returned rotation is
the slerp with factor `min(rotation_smoothing * dt, 1)`; when both factors
saturate (`rate * dt ≥ 1`) and the internal rotation is a unit quaternion, one
step lands exactly on the internal translation, and on the internal rotation
quaternion when the rendered and internal quaternions have nonnegative dot
product — when the dot product is negative it lands on its negation, the same
spatial rotation by the quaternion double cover, but not the same quaternion. -/
theorem C5_smoothing_formula_and_saturation (fp : FirstPersonCamera)
    (tp : ThirdPersonCamera) (dt : ℝ) (tr : Transform) (corr : LineOfSightCorrection) :
    ((fp.getCameraTransform dt tr).translation =
        tr.translation.lerp fp.transform.translation
          (min (fp.config.camera.first_person.translation_smoothing * dt) 1) ∧
      (fp.getCameraTransform dt tr).rotation =
        tr.rotation.slerp fp.transform.rotation
          (min (fp.config.camera.first_person.rotation_smoothing * dt) 1)) ∧
    ((tp.getCameraTransform dt tr corr).translation =
        tr.translation.lerp tp.transform.translation
          (min ((if corr = LineOfSightCorrection.further then
              tp.config.camera.third_person.translation_smoothing_going_further
            else tp.config.camera.third_person.translation_smoothing_going_closer) * dt) 1) ∧
      (tp.getCameraTransform dt tr corr).rotation =
        tr.rotation.slerp tp.transform.rotation
          (min (tp.config.camera.first_person.rotation_smoothing * dt) 1)) ∧
    (1 ≤ fp.config.camera.first_person.translation_smoothing * dt →
      1 ≤ fp.config.camera.first_person.rotation_smoothing * dt →
      fp.transform.rotation.dot fp.transform.rotation = 1 →
      (fp.getCameraTransform dt tr).translation = fp.transform.translation ∧
      (0 ≤ tr.rotation.dot fp.transform.rotation →
        (fp.getCameraTransform dt tr).rotation = fp.transform.rotation) ∧
      (tr.rotation.dot fp.transform.rotation < 0 →
        (fp.getCameraTransform dt tr).rotation = -fp.transform.rotation)) ∧
    (1 ≤ (if corr = LineOfSightCorrection.further then
          tp.config.camera.third_person.translation_smoothing_going_further
        else tp.config.camera.third_person.translation_smoothing_going_closer) * dt →
      1 ≤ tp.config.camera.first_person.rotation_smoothing * dt →
      tp.transform.rotation.dot tp.transform.rotation = 1 →
      (tp.getCameraTransform dt tr corr).translation = tp.transform.translation ∧
      (0 ≤ tr.rotation.dot tp.transform.rotation →
        (tp.getCameraTransform dt tr corr).rotation = tp.transform.rotation) ∧
      (tr.rotation.dot tp.transform.rotation < 0 →
        (tp.getCameraTransform dt tr corr).rotation = -tp.transform.rotation)) := by
  refine ⟨⟨rfl, rfl⟩, ⟨?_, rfl⟩, ?_, ?_⟩
  · cases corr <;> rfl
  · intro ht hr hu
    have hts : min (fp.config.camera.first_person.translation_smoothing * dt) 1 = 1 :=
      min_eq_right ht
    have hrs : min (fp.config.camera.first_person.rotation_smoothing * dt) 1 = 1 :=
      min_eq_right hr
    refine ⟨?_, ?_, ?_⟩
    · show tr.translation.lerp fp.transform.translation
        (min (fp.config.camera.first_person.translation_smoothing * dt) 1) =
          fp.transform.translation
      rw [hts, Vec3.lerp_one]
    · intro hdot
      show tr.rotation.slerp fp.transform.rotation
        (min (fp.config.camera.first_person.rotation_smoothing * dt) 1) =
          fp.transform.rotation
      rw [hrs, Quat.slerp_one _ _ hu, if_pos hdot]
    · intro hdot
      show tr.rotation.slerp fp.transform.rotation
        (min (fp.config.camera.first_person.rotation_smoothing * dt) 1) =
          -fp.transform.rotation
      rw [hrs, Quat.slerp_one _ _ hu, if_neg (not_le.mpr hdot)]
  · intro ht hr hu
    have hrs : min (tp.config.camera.first_person.rotation_smoothing * dt) 1 = 1 :=
      min_eq_right hr
    refine ⟨?_, ?_, ?_⟩
    · cases hcorr : corr
      · rw [hcorr] at ht
        show tr.translation.lerp tp.transform.translation
          (min (tp.config.camera.third_person.translation_smoothing_going_closer * dt) 1) =
            tp.transform.translation
        rw [min_eq_right (by simpa using ht), Vec3.lerp_one]
      · rw [hcorr] at ht
        show tr.translation.lerp tp.transform.translation
          (min (tp.config.camera.third_person.translation_smoothing_going_further * dt) 1) =
            tp.transform.translation
        rw [min_eq_right (by simpa using ht), Vec3.lerp_one]
    · intro hdot
      show tr.rotation.slerp tp.transform.rotation
        (min (tp.config.camera.first_person.rotation_smoothing * dt) 1) =
          tp.transform.rotation
      rw [hrs, Quat.slerp_one _ _ hu, if_pos hdot]
    · intro hdot
      show tr.rotation.slerp tp.transform.rotation
        (min (tp.config.camera.first_person.rotation_smoothing * dt) 1) =
          -tp.transform.rotation
      rw [hrs, Quat.slerp_one _ _ hu, if_neg (not_le.mpr hdot)]

/-- Witness for C5's amended theorem: at saturating rates and aligned
quaternion signs one first-person step lands exactly on the internal pose. -/
theorem C5_witness :
    (1 ≤ sampleFirstPerson.config.camera.first_person.translation_smoothing * 1 ∧
      1 ≤ sampleFirstPerson.config.camera.first_person.rotation_smoothing * 1 ∧
      sampleFirstPerson.transform.rotation.dot sampleFirstPerson.transform.rotation = 1 ∧
      0 ≤ sampleTransform.rotation.dot sampleFirstPerson.transform.rotation) ∧
    ((sampleFirstPerson.getCameraTransform 1 sampleTransform).translation =
        sampleFirstPerson.transform.translation ∧
      (sampleFirstPerson.getCameraTransform 1 sampleTransform).rotation =
        sampleFirstPerson.transform.rotation) := by
  have h1 : 1 ≤ sampleFirstPerson.config.camera.first_person.translation_smoothing * 1 := by
    norm_num [sampleFirstPerson, sampleConfig]
  have h2 : 1 ≤ sampleFirstPerson.config.camera.first_person.rotation_smoothing * 1 := by
    norm_num [sampleFirstPerson, sampleConfig]
  have h3 : sampleFirstPerson.transform.rotation.dot sampleFirstPerson.transform.rotation =
      1 := by
    norm_num [sampleFirstPerson, sampleTransform, Quat.identity, Quat.dot]
  have h4 : 0 ≤ sampleTransform.rotation.dot sampleFirstPerson.transform.rotation := by
    norm_num [sampleFirstPerson, sampleTransform, Quat.identity, Quat.dot]
  have h := (C5_smoothing_formula_and_saturation sampleFirstPerson sampleThirdPerson 1
    sampleTransform LineOfSightCorrection.further).2.2.1 h1 h2 h3
  exact ⟨⟨h1, h2, h3, h4⟩, h.1, h.2.1 h4⟩

/-! ### Correctness of the matrix-to-quaternion conversion on the Z axis -/

lemma Quat.mulVec3_z (q : Quat) :
    q.mulVec3 ⟨0, 0, 1⟩ =
      ⟨2 * q.z * q.x + 2 * q.w * q.y, 2 * q.z * q.y - 2 * q.w * q.x,
        q.w * q.w - q.x * q.x - q.y * q.y + q.z * q.z⟩ := by
  refine Vec3.eq_of_components ?_ ?_ ?_ <;>
    simp only [Quat.mulVec3, Vec3.dot, Vec3.cross, Vec3.smul_def, Vec3.add_def] <;> ring

lemma actionZ_components (A B C D t c1 c2 c3 : ℝ) (ht : 0 < t)
    (h1 : C * A + D * B = 2 * t * c1)
    (h2 : C * B - D * A = 2 * t * c2)
    (h3 : D * D - A * A - B * B + C * C = 4 * t * c3) :
    (Quat.mk (A * (1 / (2 * Real.sqrt t))) (B * (1 / (2 * Real.sqrt t)))
      (C * (1 / (2 * Real.sqrt t))) (D * (1 / (2 * Real.sqrt t)))).mulVec3 ⟨0, 0, 1⟩ =
      ⟨c1, c2, c3⟩ := by
  have hsp : 0 < Real.sqrt t := Real.sqrt_pos.mpr ht
  have hs2 : Real.sqrt t * Real.sqrt t = t := Real.mul_self_sqrt ht.le
  rw [Quat.mulVec3_z]
  refine Vec3.eq_of_components ?_ ?_ ?_ <;> simp only [] <;> field_simp
  · linear_combination 2 * h1 - 4 * c1 * hs2
  · linear_combination 2 * h2 - 4 * c2 * hs2
  · linear_combination h3 - 4 * c3 * hs2

/-- glam's `from_rotation_axes` (the `from_mat3` kernel) acting on `Vec3::Z`
returns the third column, for any right-handed orthonormal input frame
(`u = b × r` with unit `r`, `b` and `r ⊥ b`). -/
lemma fromRotationAxes_action_z (r u b : Vec3)
    (hr : r.dot r = 1) (hb : b.dot b = 1) (hrb : r.dot b = 0) (hu : u = b.cross r) :
    (Quat.fromRotationAxes r u b).mulVec3 ⟨0, 0, 1⟩ = b := by
  subst hu
  obtain ⟨r1, r2, r3⟩ := r
  obtain ⟨b1, b2, b3⟩ := b
  simp only [Vec3.dot] at hr hb hrb
  simp only [Quat.fromRotationAxes, Vec3.cross]
  split_ifs with hc1 hc2 hc3
  · refine actionZ_components _ _ _ _ _ _ _ _ ?_ ?_ ?_ ?_
    · nlinarith [hc1, hc2]
    · linear_combination (-b1 * b3 + b1) * hr + (-r1 * r3 - r3) * hb +
        (r3 * b1 + r1 * b3 - r1 + b3 - 1) * hrb
    · linear_combination (-b2 * b3 + b2) * hr + (-r2 * r3) * hb +
        (r3 * b2 + r2 * b3 - r2) * hrb
    · linear_combination (-2 * b3 ^ 2 + 2 * b3) * hr +
        (r1 ^ 2 + r2 ^ 2 - r3 ^ 2 + 2 * r1 + 1) * hb +
        (-r1 * b1 - r2 * b2 + 3 * r3 * b3 - 2 * r3 - 2 * b1) * hrb
  · refine actionZ_components _ _ _ _ _ _ _ _ ?_ ?_ ?_ ?_
    · nlinarith [hc1, hc2]
    · linear_combination (-b1 * b3 + b1) * hr + (-r1 * r3 + r3) * hb +
        (r3 * b1 + r1 * b3 - r1 - b3 + 1) * hrb
    · linear_combination (-b2 * b3 + b2) * hr + (-r2 * r3) * hb +
        (r3 * b2 + r2 * b3 - r2) * hrb
    · linear_combination (-2 * b3 ^ 2 + 2 * b3) * hr +
        (r1 ^ 2 + r2 ^ 2 - r3 ^ 2 - 2 * r1 + 1) * hb +
        (-r1 * b1 - r2 * b2 + 3 * r3 * b3 - 2 * r3 + 2 * b1) * hrb
  · refine actionZ_components _ _ _ _ _ _ _ _ ?_ ?_ ?_ ?_
    · nlinarith [hc1, hc3]
    · linear_combination (b1 * b3 + b1) * hr + (r1 * r3 - r3) * hb +
        (-r3 * b1 - r1 * b3 - r1 + b3 + 1) * hrb
    · linear_combination (b2 * b3 + b2) * hr + (r2 * r3) * hb +
        (-r3 * b2 - r2 * b3 - r2) * hrb
    · linear_combination (2 * b3 ^ 2 + 2 * b3) * hr +
        (-r1 ^ 2 - r2 ^ 2 + r3 ^ 2 + 2 * r1 - 1) * hb +
        (r1 * b1 + r2 * b2 - 3 * r3 * b3 - 2 * r3 - 2 * b1) * hrb
  · refine actionZ_components _ _ _ _ _ _ _ _ ?_ ?_ ?_ ?_
    · nlinarith [hc1, hc3]
    · linear_combination (b1 * b3 + b1) * hr + (r1 * r3 + r3) * hb +
        (-r3 * b1 - r1 * b3 - r1 - b3 - 1) * hrb
    · linear_combination (b2 * b3 + b2) * hr + (r2 * r3) * hb +
        (-r3 * b2 - r2 * b3 - r2) * hrb
    · linear_combination (2 * b3 ^ 2 + 2 * b3) * hr +
        (-r1 ^ 2 - r2 ^ 2 + r3 ^ 2 - 2 * r1 - 1) * hb +
        (r1 * b1 + r2 * b2 - 3 * r3 * b3 - 2 * r3 + 2 * b1) * hrb

lemma Vec3.dot_neg_neg (a : Vec3) : (-a).dot (-a) = a.dot a := by
  simp only [Vec3.dot, Vec3.neg_def]
  ring

lemma Vec3.smul_dot (k : ℝ) (a b : Vec3) : (k • a).dot b = k * (a.dot b) := by
  simp only [Vec3.dot, Vec3.smul_def]
  ring

lemma Vec3.cross_dot_right (a b : Vec3) : (a.cross b).dot b = 0 := by
  simp only [Vec3.dot, Vec3.cross]
  ring

lemma Vec3.cross_neg_right (a b : Vec3) : a.cross (-b) = -(a.cross b) := by
  refine Vec3.eq_of_components ?_ ?_ ?_ <;>
    simp only [Vec3.cross, Vec3.neg_def] <;> ring

lemma Vec3.neg_neg_self (a : Vec3) : -(-a) = a := by
  refine Vec3.eq_of_components ?_ ?_ ?_ <;> simp only [Vec3.neg_def] <;> ring

lemma Vec3.sub_sub_cancel_self (a v : Vec3) : a - (a - v) = v := by
  refine Vec3.eq_of_components ?_ ?_ ?_ <;> simp only [Vec3.sub_def] <;> ring

lemma Vec3.normalize_unit (v : Vec3) (h : v.dot v = 1) : v.normalize = v := by
  unfold Vec3.normalize Vec3.length
  rw [h, Real.sqrt_one]
  refine Vec3.eq_of_components ?_ ?_ ?_ <;> simp [Vec3.smul_def]

lemma Quat.dot_mulVec3_self (q : Quat) (v : Vec3) :
    (q.mulVec3 v).dot (q.mulVec3 v) = q.dot q * q.dot q * v.dot v := by
  obtain ⟨qx, qy, qz, qw⟩ := q
  obtain ⟨vx, vy, vz⟩ := v
  simp only [Quat.mulVec3, Quat.dot, Vec3.dot, Vec3.cross, Vec3.smul_def, Vec3.add_def]
  ring

/-- C7: converting first-person to third-person and back, when the original
rotation quaternion is unit, the configured minimum third-person distance is
positive and the up axis is not parallel to the forward direction, the
position, look target, up axis and configuration come back exactly, the
intermediate third-person pivot is the original position with the eye stepped
back by the minimum distance along `forward`, and the forward direction is
preserved exactly in the real-number model (i.e. within floating-point
tolerance in the implementation). -/
theorem C7_roundtrip_preserves_pose (fp : FirstPersonCamera)
    (hq : fp.transform.rotation.dot fp.transform.rotation = 1)
    (hd : 0 < fp.config.camera.third_person.min_distance)
    (hcross : 0 < (fp.up.cross fp.forward).dot (fp.up.cross fp.forward)) :
    (FirstPersonCamera.fromThirdPerson
        (ThirdPersonCamera.fromFirstPerson fp)).transform.translation =
      fp.transform.translation ∧
    (FirstPersonCamera.fromThirdPerson
        (ThirdPersonCamera.fromFirstPerson fp)).look_target = fp.look_target ∧
    (FirstPersonCamera.fromThirdPerson (ThirdPersonCamera.fromFirstPerson fp)).up = fp.up ∧
    (FirstPersonCamera.fromThirdPerson (ThirdPersonCamera.fromFirstPerson fp)).config =
      fp.config ∧
    (ThirdPersonCamera.fromFirstPerson fp).target = fp.transform.translation ∧
    (ThirdPersonCamera.fromFirstPerson fp).distance =
      fp.config.camera.third_person.min_distance ∧
    (ThirdPersonCamera.fromFirstPerson fp).transform.translation =
      fp.transform.translation - fp.config.camera.third_person.min_distance • fp.forward ∧
    (FirstPersonCamera.fromThirdPerson (ThirdPersonCamera.fromFirstPerson fp)).forward =
      fp.forward := by
  have hfu : fp.forward.dot fp.forward = 1 := by
    show ((-(fp.transform.rotation.mulVec3 ⟨0, 0, 1⟩)).dot
      (-(fp.transform.rotation.mulVec3 ⟨0, 0, 1⟩))) = 1
    rw [Vec3.dot_neg_neg, Quat.dot_mulVec3_self, hq]
    norm_num [Vec3.dot]
  have hnb : (fp.transform.translation - (fp.transform.translation -
      fp.config.camera.third_person.min_distance • fp.forward)).normalize = fp.forward := by
    rw [Vec3.sub_sub_cancel_self, Vec3.normalize_smul_pos _ hd, Vec3.normalize_unit _ hfu]
  have hrot : (ThirdPersonCamera.fromFirstPerson fp).transform.rotation =
      Quat.fromRotationAxes
        ((fp.up.cross (-(fp.transform.translation - (fp.transform.translation -
          fp.config.camera.third_person.min_distance • fp.forward)).normalize)).normalize)
        ((-(fp.transform.translation - (fp.transform.translation -
          fp.config.camera.third_person.min_distance • fp.forward)).normalize).cross
          ((fp.up.cross (-(fp.transform.translation - (fp.transform.translation -
            fp.config.camera.third_person.min_distance • fp.forward)).normalize)).normalize))
        (-(fp.transform.translation - (fp.transform.translation -
          fp.config.camera.third_person.min_distance • fp.forward)).normalize) := rfl
  rw [hnb] at hrot
  have haz : (ThirdPersonCamera.fromFirstPerson fp).transform.rotation.mulVec3 ⟨0, 0, 1⟩ =
      -fp.forward := by
    rw [hrot]
    apply fromRotationAxes_action_z
    · apply Vec3.dot_normalize_self
      rw [Vec3.cross_neg_right, Vec3.dot_neg_neg]
      exact hcross
    · rw [Vec3.dot_neg_neg]
      exact hfu
    · show ((fp.up.cross (-fp.forward)).normalize).dot (-fp.forward) = 0
      unfold Vec3.normalize
      rw [Vec3.smul_dot, Vec3.cross_dot_right]
      ring
    · rfl
  refine ⟨rfl, rfl, rfl, rfl, rfl, rfl, rfl, ?_⟩
  show -((ThirdPersonCamera.fromFirstPerson fp).transform.rotation.mulVec3 ⟨0, 0, 1⟩) =
    fp.forward
  rw [haz, Vec3.neg_neg_self]

/-- Witness for C7 at a concrete first-person camera with identity
orientation, world-up axis and positive configured minimum distance. -/
theorem C7_witness :
    (sampleFirstPerson.transform.rotation.dot sampleFirstPerson.transform.rotation = 1 ∧
      0 < sampleFirstPerson.config.camera.third_person.min_distance ∧
      0 < (sampleFirstPerson.up.cross sampleFirstPerson.forward).dot
        (sampleFirstPerson.up.cross sampleFirstPerson.forward)) ∧
    ((FirstPersonCamera.fromThirdPerson
        (ThirdPersonCamera.fromFirstPerson sampleFirstPerson)).transform.translation =
      sampleFirstPerson.transform.translation ∧
    (FirstPersonCamera.fromThirdPerson
        (ThirdPersonCamera.fromFirstPerson sampleFirstPerson)).forward =
      sampleFirstPerson.forward) := by
  have h1 : sampleFirstPerson.transform.rotation.dot sampleFirstPerson.transform.rotation =
      1 := by
    norm_num [sampleFirstPerson, sampleTransform, Quat.identity, Quat.dot]
  have h2 : 0 < sampleFirstPerson.config.camera.third_person.min_distance := by
    norm_num [sampleFirstPerson, sampleConfig]
  have h3 : 0 < (sampleFirstPerson.up.cross sampleFirstPerson.forward).dot
      (sampleFirstPerson.up.cross sampleFirstPerson.forward) := by
    norm_num [sampleFirstPerson, sampleTransform, FirstPersonCamera.forward,
      Transform.forward, Transform.localZ, Quat.mulVec3, Quat.identity, Vec3.dot, Vec3.cross,
      Vec3.smul_def, Vec3.add_def, Vec3.neg_def]
  have h := C7_roundtrip_preserves_pose sampleFirstPerson h1 h2 h3
  exact ⟨⟨h1, h2, h3⟩, h.1, h.2.2.2.2.2.2.2⟩

end

end Hamlet
